import Mathlib

/-!
Verification development for the Archive-Origin backend (Python).

The Python modules under `app/` are shallowly embedded: Python `str` is
modelled as `List Char` (a sequence of Unicode code points), machine-level
hashing (`hashlib.sha256`) is implemented bit-for-bit over byte lists with
32-bit words carried as `Nat` values reduced modulo `2 ^ 32`, database
sessions become explicit record-list states, and code that raises returns
`Except`.  Each embedded definition cites the source function it follows.
-/

set_option maxRecDepth 40000
set_option maxHeartbeats 2000000

/-- Python `str` is a sequence of Unicode code points. -/
abbrev Str := List Char

/-- Shorthand for turning a Lean string literal into the `Str` model. -/
def strOf (s : String) : Str := s.data

/-! ## SHA-256 (hashlib.sha256), big-endian, FIPS 180-4

Bytes are `Nat` values below 256; 32-bit words are `Nat` values reduced
modulo `2 ^ 32` after every arithmetic step. -/

/-- Reduce to a 32-bit word. -/
def w32 (x : Nat) : Nat := x % 4294967296

/-- Rotate a 32-bit word right by `n` bits. -/
def rotr (n x : Nat) : Nat := w32 ((x >>> n) ||| (x <<< (32 - n)))

/-- Bitwise complement of a 32-bit word. -/
def not32 (x : Nat) : Nat := x ^^^ 4294967295

def sha256Ch (x y z : Nat) : Nat := (x &&& y) ^^^ (not32 x &&& z)

def sha256Maj (x y z : Nat) : Nat := (x &&& y) ^^^ (x &&& z) ^^^ (y &&& z)

def bsig0 (x : Nat) : Nat := rotr 2 x ^^^ rotr 13 x ^^^ rotr 22 x

def bsig1 (x : Nat) : Nat := rotr 6 x ^^^ rotr 11 x ^^^ rotr 25 x

def ssig0 (x : Nat) : Nat := rotr 7 x ^^^ rotr 18 x ^^^ (x >>> 3)

def ssig1 (x : Nat) : Nat := rotr 17 x ^^^ rotr 19 x ^^^ (x >>> 10)

/-- The 64 SHA-256 round constants (FIPS 180-4, the fractional parts of
the cube roots of the first 64 primes), in decimal. -/
def K256 : List Nat :=
  [1116352408, 1899447441, 3049323471, 3921009573, 961987163, 1508970993,
   2453635748, 2870763221, 3624381080, 310598401, 607225278, 1426881987,
   1925078388, 2162078206, 2614888103, 3248222580, 3835390401, 4022224774,
   264347078, 604807628, 770255983, 1249150122, 1555081692, 1996064986,
   2554220882, 2821834349, 2952996808, 3210313671, 3336571891, 3584528711,
   113926993, 338241895, 666307205, 773529912, 1294757372, 1396182291,
   1695183700, 1986661051, 2177026350, 2456956037, 2730485921, 2820302411,
   3259730800, 3345764771, 3516065817, 3600352804, 4094571909, 275423344,
   430227734, 506948616, 659060556, 883997877, 958139571, 1322822218,
   1537002063, 1747873779, 1955562222, 2024104815, 2227730452, 2361852424,
   2428436474, 2756734187, 3204031479, 3329325298]

/-- The SHA-256 initial hash state, in decimal. -/
def H256 : List Nat :=
  [1779033703, 3144134277, 1013904242, 2773480762,
   1359893119, 2600822924, 528734635, 1541459225]

/-- Big-endian byte encoding of `n` over `len` bytes. -/
def toBytesBE (n : Nat) : Nat → List Nat
  | 0 => []
  | len + 1 => toBytesBE (n / 256) len ++ [n % 256]

/-- FIPS 180-4 padding: append `0x80`, zero fill, and the 64-bit bit length. -/
def padMessage (m : List Nat) : List Nat :=
  let z := (64 - (m.length + 9) % 64) % 64
  m ++ [128] ++ List.replicate z 0 ++ toBytesBE (8 * m.length) 8

/-- Group bytes four at a time into big-endian 32-bit words. -/
def bytesToWords : List Nat → List Nat
  | b0 :: b1 :: b2 :: b3 :: rest =>
      (b0 * 16777216 + b1 * 65536 + b2 * 256 + b3) :: bytesToWords rest
  | _ => []

/-- Accumulate bytes into 64-byte blocks (structural, so that it reduces). -/
def chunksAux : List Nat → List Nat → List (List Nat)
  | [], cur => if cur.isEmpty then [] else [cur]
  | b :: rest, cur =>
      if cur.length == 63 then (cur ++ [b]) :: chunksAux rest []
      else chunksAux rest (cur ++ [b])

/-- Split into 64-byte blocks. -/
def chunks64 (l : List Nat) : List (List Nat) := chunksAux l []

/-- Append the next word of the SHA-256 message schedule. -/
def schedStep (ws : List Nat) : List Nat :=
  ws ++ [w32 (ssig1 (ws.getD (ws.length - 2) 0) + ws.getD (ws.length - 7) 0 +
              ssig0 (ws.getD (ws.length - 15) 0) + ws.getD (ws.length - 16) 0)]

/-- Extend the 16 block words by `n` schedule words. -/
def schedule : Nat → List Nat → List Nat
  | 0, ws => ws
  | n + 1, ws => schedule n (schedStep ws)

/-- One SHA-256 compression round on the state `[a, b, c, d, e, f, g, h]`. -/
def sha256Round (st : List Nat) (kw : Nat × Nat) : List Nat :=
  match st with
  | [a, b, c, d, e, f, g, h] =>
      let t1 := w32 (h + bsig1 e + sha256Ch e f g + kw.1 + kw.2)
      let t2 := w32 (bsig0 a + sha256Maj a b c)
      [w32 (t1 + t2), a, b, c, w32 (d + t1), e, f, g]
  | other => other

/-- Compress one 64-byte block into the running hash state. -/
def compressBlock (h : List Nat) (block : List Nat) : List Nat :=
  let ws := schedule 48 (bytesToWords block)
  let st := (K256.zip ws).foldl sha256Round h
  (h.zip st).map (fun p => w32 (p.1 + p.2))

/-- SHA-256 digest (32 bytes) of a byte sequence. -/
def sha256Bytes (m : List Nat) : List Nat :=
  (((chunks64 (padMessage m)).foldl compressBlock H256).map (fun wd => toBytesBE wd 4)).flatten

/-- Lowercase hexadecimal digit. -/
def hexDigitChar (n : Nat) : Char := if n < 10 then Char.ofNat (48 + n) else Char.ofNat (87 + n)

/-- Two lowercase hex characters for one byte. -/
def byteToHex (b : Nat) : Str := [hexDigitChar (b / 16), hexDigitChar (b % 16)]

/-- Lowercase hex rendering of a byte sequence (Python `hexdigest`). -/
def bytesToHex (bs : List Nat) : Str := (bs.map byteToHex).flatten

/-- UTF-8 encoding of one code point (Python `str.encode`). -/
def utf8EncodeChar (c : Char) : List Nat :=
  let n := c.toNat
  if n < 128 then [n]
  else if n < 2048 then [192 ||| (n >>> 6), 128 ||| (n &&& 63)]
  else if n < 65536 then
    [224 ||| (n >>> 12), 128 ||| ((n >>> 6) &&& 63), 128 ||| (n &&& 63)]
  else
    [240 ||| (n >>> 18), 128 ||| ((n >>> 12) &&& 63), 128 ||| ((n >>> 6) &&& 63), 128 ||| (n &&& 63)]

/-- UTF-8 encoding of a string. -/
def utf8Encode (s : Str) : List Nat := (s.map utf8EncodeChar).flatten

/-- `hashlib.sha256(s.encode("utf-8")).hexdigest()`. -/
def sha256HexOfStr (s : Str) : Str := bytesToHex (sha256Bytes (utf8Encode s))

/-! ## Hash / Merkle kernel (app/merkle.py)

`SHA256_PREFIX = "sha256:"`, `SHA256_LENGTH = 64`.  Errors raised as
`MerkleComputationError` become `Except.error` values.  The `while` loops
are embedded with explicit fuel; callers pass the level length as fuel,
which the halving bound proves sufficient. -/

/-- The `SHA256_PREFIX` constant of merkle.py. -/
def sha256Tag : Str := strOf "sha256:"

/-- `MerkleComputationError` with its message. -/
structure MerkleErr where
  message : String
  deriving DecidableEq, Repr

instance {e a : Type} [DecidableEq e] [DecidableEq a] : DecidableEq (Except e a) := fun x y =>
  match x, y with
  | Except.ok u, Except.ok v =>
      if h : u = v then isTrue (by rw [h]) else isFalse (by intro hh; cases hh; exact h rfl)
  | Except.error u, Except.error v =>
      if h : u = v then isTrue (by rw [h]) else isFalse (by intro hh; cases hh; exact h rfl)
  | Except.ok _, Except.error _ => isFalse (by intro hh; cases hh)
  | Except.error _, Except.ok _ => isFalse (by intro hh; cases hh)

/-- ASCII lowering of one character; models `str.lower` on the ASCII range
(the kernel only ever lowers hex digests). -/
def asciiLower (c : Char) : Char :=
  if 65 <= c.toNat && c.toNat <= 90 then Char.ofNat (c.toNat + 32) else c

/-- `str.lower` on the ASCII range. -/
def lowerStr (s : Str) : Str := s.map asciiLower

/-- `_strip_prefix`: demand the `sha256:` tag, split it off, demand 64
remaining characters, and lower the digest.  No hex-character check is
performed by the source. -/
def stripLeaf (value : Str) : Except MerkleErr Str :=
  if sha256Tag.isPrefixOf value then
    let digest := value.drop 7
    if digest.length == 64 then Except.ok (lowerStr digest)
    else Except.error ⟨"sha256 digest must be 64 hex characters"⟩
  else Except.error ⟨"hash must start with sha256:"⟩

/-- `_hash_pair`: SHA-256 over the UTF-8 concatenation, as lowercase hex. -/
def hashPair (left right : Str) : Str := sha256HexOfStr (left ++ right)

/-- The list comprehension `[_strip_prefix(leaf) for leaf in leaves]`,
stopping at the first failing leaf. -/
def stripLeaves : List Str → Except MerkleErr (List Str)
  | [] => Except.ok []
  | s :: rest =>
      match stripLeaf s with
      | Except.error e => Except.error e
      | Except.ok d =>
          match stripLeaves rest with
          | Except.error e => Except.error e
          | Except.ok ds => Except.ok (d :: ds)

/-- Duplicate the last element when the level has odd length. -/
def dupLastIfOdd (l : List Str) : List Str :=
  if l.length % 2 == 1 then l ++ [l.getLast!] else l

/-- Hash adjacent elements left to right (the level is even-length when the
source reaches this step). -/
def hashAdjacent : List Str → List Str
  | a :: b :: rest => hashPair a b :: hashAdjacent rest
  | _ => []

/-- One iteration of the level loop: pad to even length, then pair up. -/
def pairStep (l : List Str) : List Str := hashAdjacent (dupLastIfOdd l)

/-- The `while len(level) > 1` loop of `compute_merkle_root`, with fuel. -/
def computeLoop : Nat → List Str → List Str
  | 0, level => level
  | fuel + 1, level =>
      if level.length <= 1 then level else computeLoop fuel (pairStep level)

/-- `compute_merkle_root`. -/
def compute_merkle_root (leaves : List Str) : Except MerkleErr Str :=
  if leaves.isEmpty then Except.error ⟨"at least one leaf hash is required"⟩
  else
    match stripLeaves leaves with
    | Except.error e => Except.error e
    | Except.ok level => Except.ok (sha256Tag ++ (computeLoop level.length level).headI)

/-- The level loop of `build_merkle_tree`, with fuel: returns the final
root element together with the levels appended after the leaf level. -/
def buildAux : Nat → List Str → Str × List (List Str)
  | 0, current => (current.headI, [])
  | fuel + 1, current =>
      if current.length <= 1 then (current.headI, [])
      else
        let nxt := pairStep current
        let r := buildAux fuel nxt
        (r.1, nxt :: r.2)

/-- `build_merkle_tree`: the root (re-tagged) and every level, leaves first. -/
def build_merkle_tree (leaves : List Str) :
    Except MerkleErr (Str × List (List Str)) :=
  if leaves.isEmpty then Except.error ⟨"at least one leaf hash is required"⟩
  else
    match stripLeaves leaves with
    | Except.error e => Except.error e
    | Except.ok current =>
        let r := buildAux current.length current
        Except.ok (sha256Tag ++ r.1, current :: r.2)

/-- Whether an `Except` value is a success. -/
def exceptOk {e a : Type} : Except e a → Bool
  | Except.ok _ => true
  | Except.error _ => false

/-- Lowercase hex digit or lowercase hex letter. -/
def isHexLowerChar (c : Char) : Bool :=
  (48 <= c.toNat && c.toNat <= 57) || (97 <= c.toNat && c.toNat <= 102)

/-- Any hexadecimal character. -/
def isHexChar (c : Char) : Bool := isHexLowerChar c || (65 <= c.toNat && c.toNat <= 70)

/-- A leaf in the canonical format the spec fixes for hash fields:
`sha256:` followed by exactly 64 lowercase hex characters. -/
def wfLeaf (s : Str) : Bool :=
  sha256Tag.isPrefixOf s && (s.drop 7).length == 64 && (s.drop 7).all isHexLowerChar

/-- A leaf the source kernel rejects: tag missing or digest length not 64. -/
def badLeafShape (s : Str) : Bool :=
  !(sha256Tag.isPrefixOf s) || !((s.drop 7).length == 64)

/-- Concrete leaf: 64 times 'a'. -/
def leafA : Str := sha256Tag ++ List.replicate 64 'a'

/-- Concrete leaf: 64 times 'b'. -/
def leafB : Str := sha256Tag ++ List.replicate 64 'b'

/-- Concrete leaf: 64 times 'c'. -/
def leafC : Str := sha256Tag ++ List.replicate 64 'c'

/-- Concrete leaf whose digest is 64 times 'z' (not hexadecimal). -/
def leafZ : Str := sha256Tag ++ List.replicate 64 'z'

/-! ## Merkle sealer (app/ledger.py, seal_pending_records)

The SQLAlchemy session becomes an explicit list of capture records; the
artifact writes and the commit are external effects whose success is an
input flag, and `session.rollback()` means the pre-pass state is kept.
Timestamps are UTC seconds as `Int`; the ULID batch id is an input. -/

/-- The columns of `CaptureRecord` that seal_pending_records reads or writes
(models.py). -/
structure CaptureRecord where
  record_id : Str
  asset_hash : Option Str
  capture_time_utc : Option Int
  device_id : Option Str
  created_at_utc : Int
  merkle_batch_id : Option Str
  merkle_root_hash : Option Str
  merkle_sealed_at_utc : Option Int
  deriving DecidableEq, Repr

/-- Python truthiness of an optional string (`if rec.asset_hash`). -/
def optTruthy : Option Str → Bool
  | none => false
  | some s => !s.isEmpty

/-- Stable insertion keeping earlier records first among equal keys. -/
def insertByCreated (r : CaptureRecord) : List CaptureRecord → List CaptureRecord
  | [] => [r]
  | x :: xs =>
      if r.created_at_utc <= x.created_at_utc then r :: x :: xs
      else x :: insertByCreated r xs

/-- Stable sort by `created_at_utc` ascending (the ORDER BY of the select). -/
def sortByCreated (l : List CaptureRecord) : List CaptureRecord :=
  l.foldr insertByCreated []

/-- A record the pass adopts: `merkle_batch_id IS NULL` (the WHERE clause)
and a truthy `asset_hash` (the Python list comprehension filter). -/
def pendingSelected (r : CaptureRecord) : Bool :=
  r.merkle_batch_id.isNone && optTruthy r.asset_hash

/-- The selected records in query order. -/
def selectPendingRecords (db : List CaptureRecord) : List CaptureRecord :=
  (sortByCreated (db.filter (fun r => r.merkle_batch_id.isNone))).filter
    (fun r => optTruthy r.asset_hash)

/-- The leaves handed to `build_merkle_tree`. -/
def selectedLeaves (db : List CaptureRecord) : List Str :=
  (selectPendingRecords db).map (fun r => r.asset_hash.getD [])

/-- Setting the three sealing fields of one record. -/
def sealUpd (bid root : Str) (t : Int) (r : CaptureRecord) : CaptureRecord :=
  { r with merkle_batch_id := some bid, merkle_root_hash := some root,
           merkle_sealed_at_utc := some t }

/-- Errors raised out of the sealing pass. -/
structure SealErr where
  message : String
  deriving DecidableEq, Repr

/-- The summary the function returns (`BatchResult` without paths). -/
structure SealResult where
  batch_id : Str
  root_hash : Str
  sealed_at_utc : Int
  record_count : Nat
  deriving DecidableEq, Repr

/-- `seal_pending_records`: select, build the tree, write artifacts, update
every selected record, commit; any failure rolls the session back.  `none`
on an empty selection means "no pending". -/
def seal_pending_records (db : List CaptureRecord) (batch_id : Str)
    (sealed_at : Int) (artifactOk commitOk : Bool) :
    Except SealErr (Option SealResult) × List CaptureRecord :=
  let records := selectPendingRecords db
  if records.isEmpty then (Except.ok none, db)
  else
    match build_merkle_tree (selectedLeaves db) with
    | Except.error e =>
        (Except.error ⟨"Unable to compute Merkle root: " ++ e.message⟩, db)
    | Except.ok (root_hash, _tree_levels) =>
        if artifactOk then
          let db2 := db.map (fun r =>
            if pendingSelected r then sealUpd batch_id root_hash sealed_at r else r)
          if commitOk then
            (Except.ok (some ⟨batch_id, root_hash, sealed_at, records.length⟩), db2)
          else (Except.error ⟨"commit failed"⟩, db)
        else (Except.error ⟨"artifact write failed"⟩, db)

/-! ## Certificate store and CRL refresher (app/attestation.py, app/crl.py)

X.509 parsing and HTTP fetching are external: a parsed certificate and the
serial lists of the successfully fetched CRLs are inputs.  The JSON text
columns `metadata_json` and `crl_urls` are carried as already-encoded
values. -/

/-- The `AttestationCertificate` row (models.py). -/
structure AttestationCert where
  cert_hash : Str
  pem : Option Str
  metadata_json : Option Str
  revoked : Bool
  revoked_at : Option Int
  revocation_reason : Option Str
  created_at_utc : Int
  serial_number : Option Str
  issuer : Option Str
  crl_urls : Option (List Str)
  last_checked_at : Option Int
  deriving DecidableEq, Repr

/-- Whether a stored serial appears in the fetched revoked set
(`serial_number.in_(revoked_serials)`; a NULL serial never matches). -/
def serialRevokedMatch (serials : List Str) (c : AttestationCert) : Bool :=
  match c.serial_number with
  | some s => serials.contains s
  | none => false

/-- The per-certificate update of the refresh loop: an already revoked match
only gets `last_checked_at` bumped; a fresh match is revoked. -/
def refreshUpdate (serials : List Str) (now : Int) (c : AttestationCert) :
    AttestationCert :=
  if serialRevokedMatch serials c then
    if c.revoked then { c with last_checked_at := some now }
    else { c with revoked := true, revoked_at := some now,
                  revocation_reason := some (strOf "crl_revoked"),
                  last_checked_at := some now }
  else c

/-- `refresh_crls` after the fetch phase: `fetchedCrls` holds the revoked
serial list of each successfully fetched CRL.  Returns the committed rows,
`checked`, and the newly revoked count. -/
def refresh_crls (certs : List AttestationCert) (fetchedCrls : List (List Str))
    (now : Int) : List AttestationCert × Nat × Nat :=
  let checked := fetchedCrls.length
  let revoked_serials := fetchedCrls.flatten
  if revoked_serials.isEmpty then (certs, checked, 0)
  else
    (certs.map (refreshUpdate revoked_serials now), checked,
     (certs.filter (fun c => serialRevokedMatch revoked_serials c && !c.revoked)).length)

/-- What `cryptography` extracts from a PEM certificate. -/
structure ParsedCert where
  cert_hash : Str
  serial_number : Str
  issuer : Str
  crl_urls : List Str
  deriving DecidableEq, Repr

/-- `ingest_certificate`: upsert by `cert_hash`.  On an existing row the
pem, metadata (when supplied), serial, issuer and non-empty CRL URLs are
replaced; `revoked`, `revoked_at` and `created_at_utc` are not touched. -/
def ingest_certificate (p : ParsedCert) (pem : Str) (metadata : Option Str)
    (certs : List AttestationCert) (now : Int) :
    AttestationCert × List AttestationCert :=
  match certs.find? (fun c => c.cert_hash == p.cert_hash) with
  | some existing =>
      let upd : AttestationCert :=
        { existing with
            pem := some pem,
            metadata_json := match metadata with
              | some m => some m
              | none => existing.metadata_json,
            serial_number := some p.serial_number,
            issuer := some p.issuer,
            crl_urls := if p.crl_urls.isEmpty then existing.crl_urls
                        else some p.crl_urls }
      (upd, certs.map (fun c => if c.cert_hash == p.cert_hash then upd else c))
  | none =>
      let record : AttestationCert :=
        { cert_hash := p.cert_hash, pem := some pem,
          metadata_json := metadata, revoked := false, revoked_at := none,
          revocation_reason := none, created_at_utc := now,
          serial_number := some p.serial_number, issuer := some p.issuer,
          crl_urls := if p.crl_urls.isEmpty then none else some p.crl_urls,
          last_checked_at := none }
      (record, certs ++ [record])

/-! ## Configuration (app/config.py)

Only the options the embedded functions read.  Field defaults mirror the
`Settings` defaults of the source.  A per-key record is the dict stored in
`settings.verifier_api_keys`; optional fields model `dict.get` returning
`None` when a key is absent. -/

/-- One verifier API key record. -/
structure KeyRecord where
  name : Option Str := none
  hmac_secret : Str
  rate_limit_per_minute : Option Int := none
  allow_manifest_summary : Option Bool := none
  deriving DecidableEq, Repr

/-- The settings the embedded functions read. -/
structure Settings where
  device_token_ttl_seconds : Int := 2592000
  device_token_renewal_buffer : Int := 604800
  verify_signatures : Bool := false
  allow_manifest_summary : Bool := false
  manifest_summary_max_bytes : Nat := 4096
  verifier_api_keys : List (Str × KeyRecord) := []
  anonymous_rate_limit_per_minute : Int := 60
  authenticated_rate_limit_per_minute : Int := 600
  replay_cache_ttl_seconds : Int := 300
  allowed_manifest_summary_fields : List Str :=
    [strOf "title", strOf "creator", strOf "capture_time_utc", strOf "description"]
  devicecheck_enabled : Bool := false
  devicecheck_allowed_bundle_ids : List Str := []
  deriving Repr

/-- An `HTTPException`: status code and detail string. -/
structure HttpErr where
  code : Nat
  detail : Str
  deriving DecidableEq, Repr

/-! ## Token service (app/security.py, app/main.py enroll_device)

Times are UTC seconds as `Int`.  The freshly sampled URL-safe token and the
DeviceCheck client outcome are inputs; the row for the device id is the
explicit `existing` state and the updated row is returned. -/

/-- A base64 alphabet character (RFC 4648, no padding). -/
def b64Char (c : Char) : Bool :=
  (65 <= c.toNat && c.toNat <= 90) || (97 <= c.toNat && c.toNat <= 122) ||
  (48 <= c.toNat && c.toNat <= 57) || c == '+' || c == '/'

/-- `base64.b64decode(value, validate=True)` succeeding, on ASCII input:
length a multiple of four, at most two trailing pads, alphabet only. -/
def b64Valid (s : Str) : Bool :=
  let padLen := (s.reverse.takeWhile (fun c => c == '=')).length
  s.length % 4 == 0 && padLen <= 2 && (s.take (s.length - padLen)).all b64Char

/-- `validate_pubkey_format` (security.py): `ed25519:` then decodable base64. -/
def validate_pubkey_format (public_key : Str) : Bool :=
  (strOf "ed25519:").isPrefixOf public_key && b64Valid (public_key.drop 8)

/-- `near_expiry` (security.py): remaining lifetime at most the buffer. -/
def near_expiry (expires_at : Int) (buffer_seconds : Int) (now : Int) : Bool :=
  expires_at - now <= buffer_seconds

/-- `is_expired` (security.py). -/
def is_expired (expires_at : Int) (now : Int) : Bool := expires_at <= now

/-- The `DeviceToken` row (models.py). -/
structure DeviceTok where
  device_id : Str
  token : Str
  public_key : Str
  platform : Option Str
  app_version : Option Str
  issued_at : Int
  expires_at : Int
  force_renewal_required : Bool
  deriving DecidableEq, Repr

/-- The `EnrollRequest` body (schemas.py). -/
structure EnrollReq where
  device_id : Str
  public_key : Str
  platform : Option Str := some (strOf "iOS")
  app_version : Option Str := none
  bundle_id : Option Str := none
  current_token : Option Str := none
  force : Bool := false
  devicecheck_token : Option Str := none
  deriving DecidableEq, Repr

/-- The `EnrollResponse` body (schemas.py). -/
structure EnrollResp where
  token : Str
  expires_at : Int
  issued_at : Int
  deriving DecidableEq, Repr

/-- `_enforce_devicecheck` (main.py); `dcResult` is the outcome of the
external `client.validate` call, carrying the failure reason. -/
def enforce_devicecheck (s : Settings) (payload : EnrollReq)
    (dcResult : Except Str Unit) : Except HttpErr Unit :=
  if !s.devicecheck_enabled then Except.ok ()
  else if !optTruthy payload.devicecheck_token then
    Except.error ⟨400, strOf "devicecheck_token_required"⟩
  else
    match
      (if !s.devicecheck_allowed_bundle_ids.isEmpty then
        match payload.bundle_id with
        | none => Except.error (⟨400, strOf "bundle_id_required"⟩ : HttpErr)
        | some b =>
            if !b.isEmpty then
              if s.devicecheck_allowed_bundle_ids.contains b then Except.ok ()
              else Except.error ⟨403, strOf "bundle_id_not_allowed"⟩
            else Except.error ⟨400, strOf "bundle_id_required"⟩
      else Except.ok ()) with
    | Except.error e => Except.error e
    | Except.ok _ =>
        match dcResult with
        | Except.error reason =>
            Except.error ⟨403, strOf "devicecheck_" ++ reason⟩
        | Except.ok _ => Except.ok ()

/-- `enroll_device` (main.py): validate the key, run DeviceCheck, then reuse
or rotate.  Returns the response and the committed row for the device. -/
def enroll_device (s : Settings) (payload : EnrollReq)
    (existing : Option DeviceTok) (now : Int) (freshToken : Str)
    (dcResult : Except Str Unit) : Except HttpErr (EnrollResp × DeviceTok) :=
  if !(validate_pubkey_format payload.public_key) then
    Except.error ⟨400, strOf "public_key must be ed25519:<base64>"⟩
  else
    match enforce_devicecheck s payload dcResult with
    | Except.error e => Except.error e
    | Except.ok _ =>
        let issued_at := now
        let expires_at := now + s.device_token_ttl_seconds
        let issueNew : Except HttpErr (EnrollResp × DeviceTok) :=
          match existing with
          | none =>
              let row : DeviceTok :=
                { device_id := payload.device_id, token := freshToken,
                  public_key := payload.public_key,
                  platform := payload.platform,
                  app_version := payload.app_version,
                  issued_at := issued_at, expires_at := expires_at,
                  force_renewal_required := false }
              Except.ok (⟨freshToken, expires_at, issued_at⟩, row)
          | some row =>
              let row2 : DeviceTok :=
                { row with token := freshToken,
                           public_key := payload.public_key,
                           platform := payload.platform,
                           app_version := payload.app_version,
                           issued_at := issued_at, expires_at := expires_at,
                           force_renewal_required := false }
              Except.ok (⟨freshToken, expires_at, issued_at⟩, row2)
        match existing with
        | some row =>
            if !payload.force then
              let ct := payload.current_token.getD []
              if ct.isEmpty || ct != row.token then
                Except.error
                  ⟨403, strOf "current_token required and must match existing token"⟩
              else if row.force_renewal_required == false &&
                  !(near_expiry row.expires_at s.device_token_renewal_buffer now) then
                Except.ok (⟨row.token, row.expires_at, row.issued_at⟩, row)
              else issueNew
            else issueNew
        | none => issueNew

/-! ## Auth and HMAC (app/auth.py)

`AUTH_WINDOW_SECONDS = 300`.  The epoch clock is an input. -/

/-- The identity record carried through the verifier call chain. -/
structure ClientIdentity where
  api_key : Option Str
  name : Str
  authenticated : Bool
  rate_limit : Int
  allow_manifest_summary : Bool
  deriving DecidableEq, Repr

/-- The three auth headers as received (absent or present). -/
structure AuthHeaders where
  apiKey : Option Str := none
  tsHeader : Option Str := none
  sigHeader : Option Str := none
  deriving DecidableEq, Repr

/-- HMAC-SHA256 (RFC 2104) over bytes. -/
def hmacSha256 (key msg : List Nat) : List Nat :=
  let k0 := if key.length > 64 then sha256Bytes key else key
  let kp := k0 ++ List.replicate (64 - k0.length) 0
  sha256Bytes ((kp.map (fun b => b ^^^ 92)) ++
    sha256Bytes ((kp.map (fun b => b ^^^ 54)) ++ msg))

/-- `hmac.new(secret, message, sha256).hexdigest()` over UTF-8 strings. -/
def hmacSha256HexStr (secret message : Str) : Str :=
  bytesToHex (hmacSha256 (utf8Encode secret) (utf8Encode message))

/-- Decimal digit run to a number, requiring at least one digit. -/
def digitsVal (cs : Str) : Option Nat :=
  if cs.isEmpty then none
  else if cs.all (fun c => 48 <= c.toNat && c.toNat <= 57) then
    some (cs.foldl (fun acc c => acc * 10 + (c.toNat - 48)) 0)
  else none

/-- `int(header)` on a plain ASCII decimal with optional sign (the general
CPython parser also strips blanks and accepts underscores; those inputs are
not modelled). -/
def parseIntStr (s : Str) : Option Int :=
  match s with
  | '-' :: rest => (digitsVal rest).map (fun n => -(n : Int))
  | '+' :: rest => (digitsVal rest).map (fun n => (n : Int))
  | _ => (digitsVal s).map (fun n => (n : Int))

/-- Python decimal rendering of an `Int`. -/
def intToStr (i : Int) : Str :=
  if i < 0 then '-' :: Nat.toDigits 10 i.natAbs else Nat.toDigits 10 i.natAbs

/-- `a or b` on an optional number with Python falsiness (`None` and `0`). -/
def pyOrInt (v : Option Int) (dflt : Int) : Int :=
  match v with
  | some n => if n == 0 then dflt else n
  | none => dflt

/-- Find the record for an API key in `settings.verifier_api_keys`. -/
def lookupKey (ks : List (Str × KeyRecord)) (k : Str) : Option KeyRecord :=
  (ks.find? (fun p => p.1 == k)).map (fun p => p.2)

/-- `authenticate_request` (auth.py): anonymous without a key; otherwise the
HMAC gauntlet, then an identity whose rate limit falls back to the global
authenticated default and whose manifest-summary permission is
`bool(key_record.get("allow_manifest_summary"))`. -/
def authenticate_request (s : Settings) (h : AuthHeaders)
    (payload_content_hash : Option Str) (nowEpoch : Int) :
    Except HttpErr ClientIdentity :=
  if !optTruthy h.apiKey then
    Except.ok
      { api_key := none, name := strOf "anonymous", authenticated := false,
        rate_limit := s.anonymous_rate_limit_per_minute,
        allow_manifest_summary := s.allow_manifest_summary }
  else
    let api_key := h.apiKey.getD []
    match lookupKey s.verifier_api_keys api_key with
    | none => Except.error ⟨401, strOf "invalid_api_key"⟩
    | some key_record =>
        let tsH := h.tsHeader.getD []
        let sigH := h.sigHeader.getD []
        if tsH.isEmpty || sigH.isEmpty then
          Except.error ⟨401, strOf "missing_hmac_headers"⟩
        else
          match parseIntStr tsH with
          | none => Except.error ⟨401, strOf "invalid_timestamp"⟩
          | some timestamp =>
              if (nowEpoch - timestamp).natAbs > 300 then
                Except.error ⟨401, strOf "timestamp_out_of_window"⟩
              else
                let message :=
                  intToStr timestamp ++ strOf ":" ++ payload_content_hash.getD []
                let expected := hmacSha256HexStr key_record.hmac_secret message
                if expected != sigH then
                  Except.error ⟨401, strOf "invalid_signature"⟩
                else
                  Except.ok
                    { api_key := some api_key,
                      name := key_record.name.getD (strOf "trusted"),
                      authenticated := true,
                      rate_limit := pyOrInt key_record.rate_limit_per_minute
                        s.authenticated_rate_limit_per_minute,
                      allow_manifest_summary :=
                        key_record.allow_manifest_summary.getD false }

/-! ## Rate limiter (app/rate_limit.py)

The `TTLCache` becomes an association list of `(hits, window_start)` pairs;
`time()` is an input.  TTL eviction needs no separate model: entries are
rewritten on every hit, so an entry can only expire when `now` has moved a
full window past `window_start`, and the reset branch already covers that
case with the same resulting state. -/

/-- `cache.get(key, (0, now))`. -/
def rateLookup (cache : List (Str × Int × Int)) (key : Str) :
    Option (Int × Int) :=
  (cache.find? (fun e => e.1 == key)).map (fun e => e.2)

/-- `cache[key] = v`: replace the entry for the key, or append it (keys are
unique, as in the source dict). -/
def rateStore : List (Str × Int × Int) → Str → (Int × Int) → List (Str × Int × Int)
  | [], key, v => [(key, v)]
  | e :: rest, key, v =>
      if e.1 == key then (key, v) :: rest else e :: rateStore rest key v

/-- `RateLimiter.hit` (rate_limit.py) with window length `window`. -/
def rateLimiterHit (window : Int) (cache : List (Str × Int × Int))
    (key : Str) (limit : Int) (now : Int) : Bool × List (Str × Int × Int) :=
  let hw := (rateLookup cache key).getD (0, now)
  let hw2 := if now - hw.2 >= window then ((0 : Int), now) else hw
  if hw2.1 >= limit then (false, rateStore cache key hw2)
  else (true, rateStore cache key (hw2.1 + 1, hw2.2))

/-- The stored hit count for a key (0 when absent). -/
def counterOf (cache : List (Str × Int × Int)) (key : Str) : Int :=
  ((rateLookup cache key).getD (0, 0)).1

/-- A sequence of hits for one key at the given times, from a cache state. -/
def runHits (window : Int) (key : Str) (limit : Int) (times : List Int)
    (cache : List (Str × Int × Int)) : List (Str × Int × Int) :=
  times.foldl (fun c n => (rateLimiterHit window c key limit n).2) cache

/-! ## Verification engine (app/verification.py)

Decoded JSON values are a mutual inductive so that the hygiene walk is
structural (and therefore evaluates).  `orjson.dumps` is modelled by a
compact JSON encoder whose UTF-8 byte length is taken.  The replay
`TTLCache` is a list of `(key, write_time)` pairs; `trusted_time.now()` is
the input `now`. -/

mutual
/-- A decoded JSON value (the `Any` of a pydantic dump); `bin` stands for
Python `bytes` values. -/
inductive Jsn where
  | null
  | bool (b : Bool)
  | num (n : Int)
  | str (s : Str)
  | bin (bs : List Nat)
  | arr (xs : JsnList)
  | obj (fields : JsnObj)

/-- A JSON array. -/
inductive JsnList where
  | nil
  | cons (hd : Jsn) (tl : JsnList)

/-- A JSON object: ordered key/value fields. -/
inductive JsnObj where
  | nil
  | cons (key : Str) (val : Jsn) (tl : JsnObj)
end

/-- The keys of an object. -/
def jsnObjKeys : JsnObj → List Str
  | JsnObj.nil => []
  | JsnObj.cons k _ t => k :: jsnObjKeys t

/-- Substring occurrence test (`needle in hay`). -/
def isSubstr (needle : Str) : Str → Bool
  | [] => needle.isEmpty
  | c :: rest => needle.isPrefixOf (c :: rest) || isSubstr needle rest

/-- `SUSPICIOUS_KEYS` (verification.py). -/
def suspiciousKeys : List Str :=
  [strOf "media", strOf "file", strOf "binary", strOf "payload",
   strOf "image", strOf "video", strOf "audio", strOf "blob"]

/-- `ensure_payload_safe` (verification.py): walk the dict items in order;
reject suspicious keys, byte values, embedded-media strings, and long
strings outside `manifest_summary`; recurse into dict values.  Lists are
not recursed into, exactly as in the source. -/
def ensurePayloadSafeObj : JsnObj → Except HttpErr Unit
  | JsnObj.nil => Except.ok ()
  | JsnObj.cons key value rest =>
      let normalized_key := lowerStr key
      if suspiciousKeys.contains normalized_key then
        Except.error ⟨400, strOf "media_payload_not_allowed"⟩
      else
        match value with
        | Jsn.bin _ => Except.error ⟨400, strOf "binary_payload_not_allowed"⟩
        | Jsn.str v =>
            if isSubstr (strOf "data:image") (lowerStr v) ||
               isSubstr (strOf "base64,") (lowerStr v) then
              Except.error ⟨400, strOf "media_payload_not_allowed"⟩
            else if v.length > 512 &&
                !(normalized_key == strOf "manifest_summary") then
              Except.error ⟨400, strOf "unexpected_field_size"⟩
            else ensurePayloadSafeObj rest
        | Jsn.obj fields =>
            match ensurePayloadSafeObj fields with
            | Except.error e => Except.error e
            | Except.ok _ => ensurePayloadSafeObj rest
        | _ => ensurePayloadSafeObj rest

/-- JSON string escaping as `orjson` emits it. -/
def jsnEscapeChar (c : Char) : Str :=
  if c == '"' then ['\\', '"']
  else if c == '\\' then ['\\', '\\']
  else if c.toNat == 8 then ['\\', 'b']
  else if c.toNat == 9 then ['\\', 't']
  else if c.toNat == 10 then ['\\', 'n']
  else if c.toNat == 12 then ['\\', 'f']
  else if c.toNat == 13 then ['\\', 'r']
  else if c.toNat < 32 then
    ['\\', 'u', '0', '0', hexDigitChar (c.toNat / 16), hexDigitChar (c.toNat % 16)]
  else [c]

/-- A JSON string literal. -/
def jsnEncodeStr (s : Str) : Str := '"' :: (s.map jsnEscapeChar).flatten ++ ['"']

mutual
/-- Compact JSON rendering of a value (`orjson.dumps` before UTF-8). -/
def jsnEncode : Jsn → Str
  | Jsn.null => strOf "null"
  | Jsn.bool b => if b then strOf "true" else strOf "false"
  | Jsn.num n => intToStr n
  | Jsn.str s => jsnEncodeStr s
  | Jsn.bin bs => bytesToHex bs
  | Jsn.arr xs => '[' :: jsnEncodeList xs ++ [']']
  | Jsn.obj fields => Char.ofNat 123 :: jsnEncodeObj fields ++ [Char.ofNat 125]

/-- Comma-joined array elements. -/
def jsnEncodeList : JsnList → Str
  | JsnList.nil => []
  | JsnList.cons h JsnList.nil => jsnEncode h
  | JsnList.cons h (JsnList.cons h2 t) =>
      jsnEncode h ++ ',' :: jsnEncodeList (JsnList.cons h2 t)

/-- Comma-joined object fields. -/
def jsnEncodeObj : JsnObj → Str
  | JsnObj.nil => []
  | JsnObj.cons k v JsnObj.nil => jsnEncodeStr k ++ ':' :: jsnEncode v
  | JsnObj.cons k v (JsnObj.cons k2 v2 t) =>
      jsnEncodeStr k ++ ':' :: jsnEncode v ++
        ',' :: jsnEncodeObj (JsnObj.cons k2 v2 t)
end

/-- `validate_manifest_summary` (verification.py). -/
def validate_manifest_summary (s : Settings) (summary : Option JsnObj)
    (allow_summary : Bool) : Except HttpErr Unit :=
  match summary with
  | none => Except.ok ()
  | some su =>
      if !allow_summary then
        Except.error ⟨400, strOf "manifest_summary_not_allowed"⟩
      else if !((jsnObjKeys su).filter
          (fun k => !(s.allowed_manifest_summary_fields.contains k))).isEmpty then
        Except.error ⟨400, strOf "manifest_summary_contains_disallowed_fields"⟩
      else if (utf8Encode (jsnEncode (Jsn.obj su))).length >
          s.manifest_summary_max_bytes then
        Except.error ⟨400, strOf "manifest_summary_too_large"⟩
      else Except.ok ()

/-- The `VerifyRequest` body (schemas.py), after pydantic validation. -/
structure VerifyReq where
  content_hash : Str
  manifest_hash : Option Str := none
  attestation_cert_hash : Str
  signature_hash : Option Str := none
  manifest_summary : Option JsnObj := none
  client_nonce : Option Str := none
  client_version : Option Str := none

/-- An optional string as a dumped JSON value. -/
def optJsn : Option Str → Jsn
  | none => Jsn.null
  | some s => Jsn.str s

/-- `payload.model_dump()`: the fields in declaration order. -/
def modelDump (p : VerifyReq) : JsnObj :=
  JsnObj.cons (strOf "content_hash") (Jsn.str p.content_hash)
    (JsnObj.cons (strOf "manifest_hash") (optJsn p.manifest_hash)
      (JsnObj.cons (strOf "attestation_cert_hash") (Jsn.str p.attestation_cert_hash)
        (JsnObj.cons (strOf "signature_hash") (optJsn p.signature_hash)
          (JsnObj.cons (strOf "manifest_summary")
            (match p.manifest_summary with
             | none => Jsn.null
             | some o => Jsn.obj o)
            (JsnObj.cons (strOf "client_nonce") (optJsn p.client_nonce)
              (JsnObj.cons (strOf "client_version") (optJsn p.client_version)
                JsnObj.nil))))))

/-- The replay-guard key: `nonce + ":" + content_hash` when a nonce is
present (truthy), else the content hash. -/
def replayKey (p : VerifyReq) : Str :=
  match p.client_nonce with
  | some n => if n.isEmpty then p.content_hash else n ++ ':' :: p.content_hash
  | none => p.content_hash

/-- A live entry for this key in the replay `TTLCache`. -/
def replayLive (s : Settings) (cache : List (Str × Int)) (digest : Str)
    (now : Int) : Bool :=
  cache.any (fun e => e.1 == digest && now - e.2 < s.replay_cache_ttl_seconds)

/-- `enforce_replay_guard` (verification.py): a live hit is 429, otherwise
the key is written with the current time. -/
def enforce_replay_guard (s : Settings) (p : VerifyReq) (now : Int)
    (cache : List (Str × Int)) : Except HttpErr (List (Str × Int)) :=
  let digest := replayKey p
  if replayLive s cache digest now then
    Except.error ⟨429, strOf "replay_detected"⟩
  else Except.ok ((digest, now) :: cache)

/-- The `LedgerEntry` row (models.py). -/
structure LedgerEntry where
  entry_id : Str
  content_hash : Str
  manifest_hash : Option Str
  device_signature_hash : Option Str
  attestation_cert_hash : Str
  timestamp_utc : Int
  proof_level : Str
  merkle_root : Option Str
  merkle_proof : Option Str
  entry_hash : Str
  created_at_utc : Int
  sourced_from : Option Str
  deriving DecidableEq, Repr

/-- The tables the verification engine reads. -/
structure VerifyDb where
  entries : List LedgerEntry
  certs : List AttestationCert
  deriving Repr

/-- `lookup_ledger` (verification.py): content hash, then manifest hash,
then device signature hash; first match wins. -/
def lookup_ledger (db : VerifyDb) (p : VerifyReq) : Option LedgerEntry :=
  match db.entries.find? (fun e => e.content_hash == p.content_hash) with
  | some e => some e
  | none =>
      match
        (if optTruthy p.manifest_hash then
          db.entries.find? (fun e => e.manifest_hash == p.manifest_hash)
        else none) with
      | some e => some e
      | none =>
          if optTruthy p.signature_hash then
            db.entries.find?
              (fun e => e.device_signature_hash == p.signature_hash)
          else none

/-- `_verify_attestation`: hash equality, cert row present, not revoked.
Returns the flag and the notes it appends. -/
def verify_attestation (db : VerifyDb) (p : VerifyReq) (entry : LedgerEntry) :
    Bool × List Str :=
  if p.attestation_cert_hash != entry.attestation_cert_hash then
    (false, [strOf "attestation hash mismatch"])
  else
    match db.certs.find? (fun c => c.cert_hash == entry.attestation_cert_hash) with
    | none => (false, [strOf "certificate_missing"])
    | some cert =>
        if cert.revoked then (false, [strOf "certificate_revoked"])
        else (true, [])

/-- `_verify_signature`. -/
def verify_signature (p : VerifyReq) (entry : LedgerEntry) : Bool × List Str :=
  if optTruthy entry.device_signature_hash && optTruthy p.signature_hash then
    if entry.device_signature_hash != p.signature_hash then
      (false, [strOf "signature_hash_mismatch"])
    else (true, [])
  else if optTruthy entry.device_signature_hash &&
      !optTruthy p.signature_hash then
    (false, [strOf "missing_signature_hash"])
  else (true, [])

/-- `_verify_manifest`. -/
def verify_manifest (p : VerifyReq) (entry : LedgerEntry) : Bool × List Str :=
  if optTruthy p.manifest_hash && optTruthy entry.manifest_hash &&
      p.manifest_hash != entry.manifest_hash then
    (false, [strOf "manifest_hash_mismatch"])
  else (true, [])

/-- `_verify_timestamp` against the trusted clock (the source also guards on
datetime truthiness, which never fails for a non-NULL column). -/
def verify_timestamp (entry : LedgerEntry) (trusted_now : Int) :
    Bool × List Str :=
  if entry.timestamp_utc - trusted_now > 120 then
    (false, [strOf "timestamp_in_future"])
  else (true, [])

/-- The verify response: the `status` tagged variant with the fields the
claims speak about (the success arm keeps the entry id in place of the full
echoed ledger schema). -/
inductive VerifyResult where
  | failure (reason : Str) (ledger_found signature_valid attestation_valid : Bool)
  | success (content_hash : Str) (entry_id : Str) (proof_level : Str)
      (expires_at : Int) (notes : List Str)
  deriving DecidableEq, Repr

/-- `perform_verification` (verification.py): hygiene, manifest-summary
check, replay guard, lookup, predicates, verdict.  Returns the result (or
the raised `HTTPException`) and the replay cache afterwards. -/
def perform_verification (s : Settings) (p : VerifyReq)
    (identity : ClientIdentity) (db : VerifyDb) (now : Int)
    (cache : List (Str × Int)) :
    Except HttpErr VerifyResult × List (Str × Int) :=
  match ensurePayloadSafeObj (modelDump p) with
  | Except.error e => (Except.error e, cache)
  | Except.ok _ =>
  match validate_manifest_summary s p.manifest_summary
      identity.allow_manifest_summary with
  | Except.error e => (Except.error e, cache)
  | Except.ok _ =>
  match enforce_replay_guard s p now cache with
  | Except.error e => (Except.error e, cache)
  | Except.ok cache2 =>
      match lookup_ledger db p with
      | none =>
          (Except.ok (VerifyResult.failure (strOf "ledger_not_found")
            false false false), cache2)
      | some entry =>
          let ledger_match := entry.content_hash == p.content_hash
          let att := verify_attestation db p entry
          let sig := verify_signature p entry
          let man := verify_manifest p entry
          let ts := verify_timestamp entry now
          if !(ledger_match && att.1 && sig.1 && man.1 && ts.1) then
            let reason :=
              if !att.1 then strOf "attestation_revoked"
              else if !sig.1 || !man.1 then strOf "signature_mismatch"
              else if !ts.1 then strOf "timestamp_mismatch"
              else strOf "ledger_not_found"
            (Except.ok (VerifyResult.failure reason true
              (sig.1 && man.1) att.1), cache2)
          else
            let notes :=
              (if ledger_match then [] else [strOf "content_hash_mismatch"]) ++
                att.2 ++ sig.2 ++ man.2 ++ ts.2
            let proof_level :=
              if [strOf "basic", strOf "attested", strOf "rooted"].contains
                  entry.proof_level then entry.proof_level
              else strOf "basic"
            (Except.ok (VerifyResult.success p.content_hash entry.entry_id
              proof_level (now + 300)
              (if notes.isEmpty then [strOf "Ledger entry matched."]
               else notes.take 4)), cache2)

/-! ## Concrete fixtures used by witnesses and counterexamples -/

/-- A pending capture record (sealing fields NULL). -/
def wRecPending : CaptureRecord :=
  { record_id := strOf "r1", asset_hash := some (strOf "sha256:" ++ List.replicate 64 'a'),
    capture_time_utc := some 100, device_id := some (strOf "d1"),
    created_at_utc := 10, merkle_batch_id := none, merkle_root_hash := none,
    merkle_sealed_at_utc := none }

/-- A second pending capture record. -/
def wRecPending2 : CaptureRecord :=
  { record_id := strOf "r2", asset_hash := some (strOf "sha256:" ++ List.replicate 64 'b'),
    capture_time_utc := some 120, device_id := some (strOf "d1"),
    created_at_utc := 20, merkle_batch_id := none, merkle_root_hash := none,
    merkle_sealed_at_utc := none }

/-- An already sealed capture record. -/
def wRecSealed : CaptureRecord :=
  { record_id := strOf "r0", asset_hash := some (strOf "sha256:" ++ List.replicate 64 'c'),
    capture_time_utc := some 50, device_id := some (strOf "d0"),
    created_at_utc := 5, merkle_batch_id := some (strOf "batch0"),
    merkle_root_hash := some (strOf "sha256:" ++ List.replicate 64 'c'),
    merkle_sealed_at_utc := some 60 }

/-- A stored, not yet revoked certificate. -/
def wCert : AttestationCert :=
  { cert_hash := List.replicate 64 'c', pem := some (strOf "PEM0"),
    metadata_json := none, revoked := false, revoked_at := none,
    revocation_reason := none, created_at_utc := 1000,
    serial_number := some (strOf "1A2B"), issuer := some (strOf "CN=Test"),
    crl_urls := none, last_checked_at := none }

/-- A stored, already revoked certificate. -/
def wCertRevoked : AttestationCert :=
  { cert_hash := List.replicate 64 'd', pem := some (strOf "PEM1"),
    metadata_json := none, revoked := true, revoked_at := some 500,
    revocation_reason := some (strOf "crl_revoked"), created_at_utc := 100,
    serial_number := some (strOf "F00D"), issuer := some (strOf "CN=Test"),
    crl_urls := none, last_checked_at := some 600 }

/-- The parse result of re-ingesting `wCertRevoked`. -/
def wParsed : ParsedCert :=
  { cert_hash := List.replicate 64 'd', serial_number := strOf "F00D",
    issuer := strOf "CN=Test", crl_urls := [strOf "http://crl.example/a"] }

/-- A stored device token row. -/
def wRow : DeviceTok :=
  { device_id := strOf "d1", token := strOf "tok-1",
    public_key := strOf "ed25519:QUJDRA==", platform := some (strOf "iOS"),
    app_version := none, issued_at := 1000, expires_at := 3592000,
    force_renewal_required := false }

/-- A repeat enrolment request for `wRow` carrying its current token. -/
def wEnrollReq : EnrollReq :=
  { device_id := strOf "d1", public_key := strOf "ed25519:QUJDRA==",
    platform := some (strOf "iOS"), app_version := none, bundle_id := none,
    current_token := some (strOf "tok-1"), force := false,
    devicecheck_token := none }

/-- Settings whose global manifest-summary default is `true` and whose one
key record leaves both optional per-key fields unset. -/
def wSettings : Settings :=
  { allow_manifest_summary := true,
    verifier_api_keys :=
      [(strOf "k1",
        { name := none, hmac_secret := strOf "secret",
          rate_limit_per_minute := none, allow_manifest_summary := none })] }

/-- The per-key record of `wSettings`: no optional field set. -/
def wKeyRec : KeyRecord :=
  { name := none, hmac_secret := strOf "secret",
    rate_limit_per_minute := none, allow_manifest_summary := none }

/-- The identity the gauntlet produces for `k1` under `wSettings`. -/
def wIdK1 : ClientIdentity :=
  { api_key := some (strOf "k1"), name := strOf "trusted",
    authenticated := true, rate_limit := 600,
    allow_manifest_summary := false }

/-- Headers carrying the key `k1`, timestamp 100, and the correct HMAC over
`"100:"` (no content hash): the literal equals
`hmacSha256HexStr (strOf "secret") (strOf "100:")`, checked by an example
below. -/
def wHeaders : AuthHeaders :=
  { apiKey := some (strOf "k1"), tsHeader := some (strOf "100"),
    sigHeader :=
      some (strOf "f29924b7a1fa9637c785db9dbc77a05c5da64bdb9705b028e042a054c5b333c4") }

/-- A ledger entry for the verification fixtures. -/
def wEntry : LedgerEntry :=
  { entry_id := strOf "entry-1", content_hash := List.replicate 64 'a',
    manifest_hash := some (List.replicate 64 'b'),
    device_signature_hash := some (List.replicate 64 'd'),
    attestation_cert_hash := List.replicate 64 'c', timestamp_utc := 900,
    proof_level := strOf "rooted", merkle_root := none, merkle_proof := none,
    entry_hash := List.replicate 64 'e', created_at_utc := 900,
    sourced_from := some (strOf "test") }

/-- Verification database: the entry with its unrevoked certificate. -/
def wVerifyDb : VerifyDb := { entries := [wEntry], certs := [wCert] }

/-- Verification database whose certificate is revoked (same hash). -/
def wVerifyDbRevoked : VerifyDb :=
  { entries := [wEntry], certs := [{ wCert with revoked := true }] }

/-- A verify payload matching `wEntry`. -/
def wPayload : VerifyReq :=
  { content_hash := List.replicate 64 'a',
    manifest_hash := some (List.replicate 64 'b'),
    attestation_cert_hash := List.replicate 64 'c',
    signature_hash := some (List.replicate 64 'd'),
    manifest_summary := none, client_nonce := some (strOf "nonce-1"),
    client_version := none }

/-- An anonymous identity without manifest-summary permission. -/
def wIdentity : ClientIdentity :=
  { api_key := none, name := strOf "anon", authenticated := false,
    rate_limit := 10, allow_manifest_summary := false }

/-! ## Theorems: sanity vectors -/

example : sha256HexOfStr (strOf "abc") =
    strOf "ba7816bf8f01cfea414140de5dae2223b00361a396177a9cb410ff61f20015ad" := by decide

example : sha256HexOfStr (strOf "") =
    strOf "e3b0c44298fc1c149afbf4c8996fb92427ae41e4649b934ca495991b7852b855" := by decide

example : hmacSha256HexStr (strOf "secret") (strOf "100:") =
    strOf "f29924b7a1fa9637c785db9dbc77a05c5da64bdb9705b028e042a054c5b333c4" := by decide

/-! ## Merkle kernel lemmas -/

theorem hashAdjacent_length : ∀ l : List Str, (hashAdjacent l).length = l.length / 2
  | [] => rfl
  | [_] => by simp [hashAdjacent]
  | a :: b :: rest => by
      simp only [hashAdjacent, List.length_cons, hashAdjacent_length rest]
      omega

theorem pairStep_length (l : List Str) : (pairStep l).length = (l.length + 1) / 2 := by
  unfold pairStep dupLastIfOdd
  by_cases h : (l.length % 2 == 1) = true
  · rw [if_pos h, hashAdjacent_length]
    simp only [beq_iff_eq] at h
    have hlen : (l ++ [l.getLast!]).length = l.length + 1 := by simp
    rw [hlen]
  · rw [if_neg h]
    simp only [beq_iff_eq] at h
    simp only [hashAdjacent_length]
    omega

theorem asciiLower_hex (c : Char) (h : isHexLowerChar c = true) : asciiLower c = c := by
  simp only [isHexLowerChar, Bool.or_eq_true, Bool.and_eq_true,
    decide_eq_true_eq] at h
  unfold asciiLower
  rw [if_neg]
  simp only [Bool.and_eq_true, decide_eq_true_eq, not_and]
  omega

theorem lowerStr_hex (d : Str) (h : ∀ c ∈ d, isHexLowerChar c = true) :
    lowerStr d = d := by
  induction d with
  | nil => rfl
  | cons c rest ih =>
      simp only [lowerStr, List.map_cons]
      rw [asciiLower_hex c (h c (by simp))]
      have : lowerStr rest = rest := ih (fun x hx => h x (by simp [hx]))
      simpa [lowerStr] using this

theorem wfLeaf_split (s : Str) (h : wfLeaf s = true) :
    s = sha256Tag ++ s.drop 7 ∧ (s.drop 7).length = 64 ∧
      ∀ c ∈ s.drop 7, isHexLowerChar c = true := by
  simp only [wfLeaf, Bool.and_eq_true, beq_iff_eq, List.all_eq_true] at h
  obtain ⟨⟨hpre, hlen⟩, hhex⟩ := h
  obtain ⟨t, ht⟩ := List.isPrefixOf_iff_prefix.mp hpre
  have hdrop : s.drop 7 = t := by
    rw [← ht]
    have : (7 : Nat) = sha256Tag.length := by decide
    rw [this, List.drop_left]
  refine ⟨?_, hlen, hhex⟩
  rw [hdrop, ← ht]

theorem stripLeaf_ok_of_wf (s : Str) (h : wfLeaf s = true) :
    stripLeaf s = Except.ok (s.drop 7) := by
  have hparts := wfLeaf_split s h
  simp only [wfLeaf, Bool.and_eq_true, beq_iff_eq, List.all_eq_true] at h
  obtain ⟨⟨hpre, hlen⟩, _⟩ := h
  have h64 : s.length - 7 = 64 := by simpa using hlen
  simp [stripLeaf, hpre, h64, lowerStr_hex _ hparts.2.2]

theorem stripLeaves_ok_of_wf (L : List Str) (h : ∀ s ∈ L, wfLeaf s = true) :
    stripLeaves L = Except.ok (L.map (fun s => s.drop 7)) := by
  induction L with
  | nil => rfl
  | cons a rest ih =>
      simp only [stripLeaves, stripLeaf_ok_of_wf a (h a (by simp)),
        ih (fun s hs => h s (by simp [hs])), List.map_cons]

theorem stripLeaf_error_of_bad (s : Str) (h : badLeafShape s = true) :
    ∃ e, stripLeaf s = Except.error e := by
  simp only [badLeafShape, Bool.or_eq_true, Bool.not_eq_true'] at h
  rcases h with h | h
  · exact ⟨⟨"hash must start with sha256:"⟩, by simp [stripLeaf, h]⟩
  · by_cases hpre : sha256Tag.isPrefixOf s = true
    · have h64 : ¬(s.length - 7 = 64) := by simpa using h
      exact ⟨⟨"sha256 digest must be 64 hex characters"⟩, by simp [stripLeaf, hpre, h64]⟩
    · exact ⟨⟨"hash must start with sha256:"⟩, by simp [stripLeaf, hpre]⟩

theorem stripLeaves_error_of_bad (L : List Str)
    (h : ∃ s ∈ L, badLeafShape s = true) : ∃ e, stripLeaves L = Except.error e := by
  induction L with
  | nil => simp at h
  | cons a rest ih =>
      by_cases hbadA : badLeafShape a = true
      · obtain ⟨e, he⟩ := stripLeaf_error_of_bad a hbadA
        exact ⟨e, by simp [stripLeaves, he]⟩
      · have : ∃ s ∈ rest, badLeafShape s = true := by
          rcases h with ⟨s, hs, hbad⟩
          rcases List.mem_cons.mp hs with rfl | hmem
          · exact absurd hbad hbadA
          · exact ⟨s, hmem, hbad⟩
        obtain ⟨e, he⟩ := ih this
        cases hsl : stripLeaf a with
        | error e2 => exact ⟨e2, by simp [stripLeaves, hsl]⟩
        | ok d => exact ⟨e, by simp [stripLeaves, hsl, he]⟩

theorem computeLoop_short (g : Nat) (l : List Str) (h : l.length <= 1) :
    computeLoop g l = l := by
  cases g with
  | zero => rfl
  | succ g2 => simp [computeLoop, h]

theorem buildAux_fst : ∀ (f : Nat) (l : List Str) (g : Nat),
    l.length <= f + 1 → l.length <= g + 1 →
    (buildAux f l).1 = (computeLoop g l).headI := by
  intro f
  induction f with
  | zero =>
      intro l g hf _
      rw [computeLoop_short g l hf]
      rfl
  | succ f2 ih =>
      intro l g hf hg
      by_cases hshort : l.length <= 1
      · rw [computeLoop_short g l hshort]
        simp [buildAux, hshort]
      · have hlen2 : 2 <= l.length := by omega
        cases g with
        | zero => omega
        | succ g2 =>
            simp only [buildAux, computeLoop, if_neg hshort]
            have hps : (pairStep l).length = (l.length + 1) / 2 := pairStep_length l
            exact ih (pairStep l) g2 (by omega) (by omega)

theorem buildAux_snd_short (f : Nat) (l : List Str) (h : l.length <= 1) :
    (buildAux f l).2 = [] := by
  cases f with
  | zero => rfl
  | succ f2 => simp [buildAux, h]

theorem buildAux_levels : ∀ (f : Nat) (l : List Str),
    1 <= l.length → l.length <= f + 1 →
    ∀ k, k + 1 < (l :: (buildAux f l).2).length →
      ((l :: (buildAux f l).2).getD (k + 1) []).length =
        (((l :: (buildAux f l).2).getD k []).length + 1) / 2 := by
  intro f
  induction f with
  | zero =>
      intro l h1 hf k hk
      rw [buildAux_snd_short 0 l hf] at hk
      simp at hk
  | succ f2 ih =>
      intro l h1 hf k hk
      by_cases hshort : l.length <= 1
      · rw [buildAux_snd_short (f2 + 1) l hshort] at hk
        simp at hk
      · have hlen2 : 2 <= l.length := by omega
        have hps : (pairStep l).length = (l.length + 1) / 2 := pairStep_length l
        have hbuild : buildAux (f2 + 1) l =
            ((buildAux f2 (pairStep l)).1, pairStep l :: (buildAux f2 (pairStep l)).2) := by
          simp [buildAux, hshort]
        rw [hbuild] at hk ⊢
        cases k with
        | zero =>
            have hhead : ∀ (rest : List (List Str)),
                ((l :: pairStep l :: rest).getD 1 []) = pairStep l := fun _ => rfl
            simp only [hhead, List.getD_cons_zero]
            omega
        | succ k2 =>
            have hrec := ih (pairStep l) (by omega) (by omega) k2
              (by simpa using hk)
            simpa using hrec

/-! ## C1, C4, C7 -/

/-- Claim C1: for every nonempty list of well-formed (canonical lowercase)
leaves, `build_merkle_tree` succeeds with the same root as
`compute_merkle_root`, its first level is the input with the `sha256:` tag
stripped, each level is half (rounded up) the length of the one before, and
both functions reject the empty input with `MerkleComputationError`. -/
theorem merkle_build_matches_compute (L : List Str) (hne : L ≠ [])
    (hwf : ∀ s ∈ L, wfLeaf s = true) :
    ∃ root levels,
      build_merkle_tree L = Except.ok (root, levels) ∧
      compute_merkle_root L = Except.ok root ∧
      levels.getD 0 [] = L.map (fun s => s.drop 7) ∧
      (∀ k, k + 1 < levels.length →
        (levels.getD (k + 1) []).length = ((levels.getD k []).length + 1) / 2) ∧
      build_merkle_tree ([] : List Str) =
        Except.error ⟨"at least one leaf hash is required"⟩ ∧
      compute_merkle_root ([] : List Str) =
        Except.error ⟨"at least one leaf hash is required"⟩ := by
  have hempty : L.isEmpty = false := by
    cases L with
    | nil => exact absurd rfl hne
    | cons a rest => rfl
  have hstrip := stripLeaves_ok_of_wf L hwf
  set stripped := L.map (fun s => s.drop 7) with hdef
  have hlen : 1 <= stripped.length := by
    cases L with
    | nil => exact absurd rfl hne
    | cons a rest => simp [hdef]
  refine ⟨sha256Tag ++ (buildAux stripped.length stripped).1,
    stripped :: (buildAux stripped.length stripped).2, ?_, ?_, ?_, ?_, rfl, rfl⟩
  · unfold build_merkle_tree
    rw [hempty]
    simp only [Bool.false_eq_true, if_false, hstrip]
  · unfold compute_merkle_root
    rw [hempty]
    simp only [Bool.false_eq_true, if_false, hstrip]
    rw [buildAux_fst stripped.length stripped stripped.length (by omega) (by omega)]
  · rfl
  · exact buildAux_levels stripped.length stripped hlen (by omega)

/-- Witness for C1 at a concrete three-leaf input. -/
theorem merkle_build_matches_compute_witness :
    ∃ root levels,
      build_merkle_tree [leafA, leafB, leafC] = Except.ok (root, levels) ∧
      compute_merkle_root [leafA, leafB, leafC] = Except.ok root ∧
      levels.getD 0 [] = [leafA, leafB, leafC].map (fun s => s.drop 7) ∧
      (∀ k, k + 1 < levels.length →
        (levels.getD (k + 1) []).length = ((levels.getD k []).length + 1) / 2) ∧
      build_merkle_tree ([] : List Str) =
        Except.error ⟨"at least one leaf hash is required"⟩ ∧
      compute_merkle_root ([] : List Str) =
        Except.error ⟨"at least one leaf hash is required"⟩ :=
  merkle_build_matches_compute [leafA, leafB, leafC] (by decide) (by decide)

/-- Claim C4, amended: on a single well-formed leaf the level loop never
runs (`while len(level) > 1`), so `compute_merkle_root([h])` returns `h`
itself, not the hash of the duplicated pair. -/
theorem compute_merkle_root_single (h : Str) (hwf : wfLeaf h = true) :
    compute_merkle_root [h] = Except.ok h := by
  have hparts := wfLeaf_split h hwf
  have hstrip := stripLeaf_ok_of_wf h hwf
  unfold compute_merkle_root
  simp only [List.isEmpty_cons, Bool.false_eq_true, if_false]
  simp only [stripLeaves, hstrip]
  have hloop : computeLoop [h.drop 7].length [h.drop 7] = [h.drop 7] :=
    computeLoop_short _ _ (by simp)
  rw [hloop]
  simp only [List.headI]
  rw [← hparts.1]

/-- Witness for the amended C4 at a concrete leaf. -/
theorem compute_merkle_root_single_witness :
    compute_merkle_root [leafB] = Except.ok leafB :=
  compute_merkle_root_single leafB (by decide)

/-- Counterexample to claim C4 as stated: at the leaf of 64 times 'a' the
function returns the leaf itself, which is not `sha256:` followed by the
digest of the duplicated pair. -/
theorem compute_merkle_root_single_counterexample :
    (compute_merkle_root [leafA]).toOption = some leafA ∧
    leafA ≠ sha256Tag ++ hashPair (List.replicate 64 'a') (List.replicate 64 'a') := by
  constructor
  · decide
  · decide

/-- Claim C7, amended: both kernel entry points reject any list containing
a leaf without the `sha256:` tag or with a digest length other than 64 (a
64-character digest with non-hex characters is not rejected; see the
counterexample). -/
theorem merkle_rejects_malformed (L : List Str)
    (hbad : ∃ s ∈ L, badLeafShape s = true) :
    (∃ e, compute_merkle_root L = Except.error e) ∧
    (∃ e, build_merkle_tree L = Except.error e) := by
  have hne : L.isEmpty = false := by
    rcases hbad with ⟨s, hs, _⟩
    cases L with
    | nil => simp at hs
    | cons a rest => rfl
  obtain ⟨e, he⟩ := stripLeaves_error_of_bad L hbad
  constructor
  · exact ⟨e, by simp [compute_merkle_root, hne, he]⟩
  · exact ⟨e, by simp [build_merkle_tree, hne, he]⟩

/-- Witness for the amended C7: a prefix-less leaf and a short digest. -/
theorem merkle_rejects_malformed_witness :
    ((∃ e, compute_merkle_root [leafA, strOf "xyz"] = Except.error e) ∧
      (∃ e, build_merkle_tree [leafA, strOf "xyz"] = Except.error e)) ∧
    ((∃ e, compute_merkle_root [strOf "sha256:abcd"] = Except.error e) ∧
      (∃ e, build_merkle_tree [strOf "sha256:abcd"] = Except.error e)) :=
  ⟨merkle_rejects_malformed [leafA, strOf "xyz"] ⟨strOf "xyz", by decide, by decide⟩,
   merkle_rejects_malformed [strOf "sha256:abcd"]
     ⟨strOf "sha256:abcd", by decide, by decide⟩⟩

/-- Counterexample to claim C7 as stated: a digest of 64 times 'z' contains
no hexadecimal characters, yet both functions accept it. -/
theorem merkle_rejects_malformed_counterexample :
    ('z' ∈ leafZ.drop 7 ∧ isHexChar 'z' = false) ∧
    (compute_merkle_root [leafZ]).toOption = some leafZ ∧
    exceptOk (build_merkle_tree [leafZ]) = true := by
  refine ⟨⟨?_, ?_⟩, ?_, ?_⟩
  · decide
  · decide
  · decide
  · decide

/-! ## C2: sealer atomicity -/

/-- Claim C2: a sealing pass either updates the sealing fields of exactly
the selected records, all to the same `(batch_id, root, sealed_at)` triple,
and commits, or (on a Merkle failure, an artifact-write failure, or a
commit failure) rolls back and leaves every record unchanged; records that
are not selected are never modified. -/
theorem seal_pending_atomic (db : List CaptureRecord) (bid : Str) (t : Int)
    (aOk cOk : Bool) :
    (exceptOk (seal_pending_records db bid t aOk cOk).1 = false →
      (seal_pending_records db bid t aOk cOk).2 = db) ∧
    (exceptOk (seal_pending_records db bid t aOk cOk).1 = true →
      (seal_pending_records db bid t aOk cOk).2 = db ∨
      ∃ root levels,
        build_merkle_tree (selectedLeaves db) = Except.ok (root, levels) ∧
        (seal_pending_records db bid t aOk cOk).2 =
          db.map (fun r => if pendingSelected r then sealUpd bid root t r else r)) ∧
    (∀ r ∈ db, pendingSelected r = false →
      r ∈ (seal_pending_records db bid t aOk cOk).2) := by
  simp only [seal_pending_records]
  by_cases hsel : (selectPendingRecords db).isEmpty = true
  · rw [if_pos hsel]
    exact ⟨fun _ => rfl, fun _ => Or.inl rfl, fun r hr _ => hr⟩
  · rw [if_neg hsel]
    cases hbuild : build_merkle_tree (selectedLeaves db) with
    | error e =>
        exact ⟨fun _ => rfl, fun h => Bool.noConfusion h, fun r hr _ => hr⟩
    | ok pr =>
        obtain ⟨root, levels⟩ := pr
        cases aOk with
        | false =>
            exact ⟨fun _ => rfl, fun h => Bool.noConfusion h, fun r hr _ => hr⟩
        | true =>
            cases cOk with
            | false =>
                exact ⟨fun _ => rfl, fun h => Bool.noConfusion h, fun r hr _ => hr⟩
            | true =>
                refine ⟨fun h => Bool.noConfusion h,
                  fun _ => Or.inr ⟨root, levels, rfl, rfl⟩, ?_⟩
                intro r hr hnp
                exact List.mem_map.mpr ⟨r, hr, by simp [hnp]⟩

/-- Witness for C2: a successful pass over one sealed and two pending
records, and a rolled-back pass when the commit fails. -/
theorem seal_pending_atomic_witness :
    ((seal_pending_records [wRecSealed, wRecPending, wRecPending2]
        (strOf "batch1") 200 true false).2 =
      [wRecSealed, wRecPending, wRecPending2]) ∧
    ((seal_pending_records [wRecSealed, wRecPending, wRecPending2]
        (strOf "batch1") 200 true true).2 =
      [wRecSealed, wRecPending, wRecPending2] ∨
      ∃ root levels,
        build_merkle_tree (selectedLeaves [wRecSealed, wRecPending, wRecPending2]) =
          Except.ok (root, levels) ∧
        (seal_pending_records [wRecSealed, wRecPending, wRecPending2]
            (strOf "batch1") 200 true true).2 =
          [wRecSealed, wRecPending, wRecPending2].map
            (fun r => if pendingSelected r then sealUpd (strOf "batch1") root 200 r
                      else r)) :=
  ⟨(seal_pending_atomic [wRecSealed, wRecPending, wRecPending2]
      (strOf "batch1") 200 true false).1 (by decide),
   (seal_pending_atomic [wRecSealed, wRecPending, wRecPending2]
      (strOf "batch1") 200 true true).2.1 (by decide)⟩

/-! ## C5: revocation monotonicity -/

/-- Claim C5: revocation is monotonic.  A refresh pass rewrites rows
pointwise (or leaves the table alone when no serial was collected); on an
already revoked row the pointwise update only bumps `last_checked_at`; and
re-ingesting a certificate over an existing row preserves `revoked`,
`revoked_at` and `created_at_utc`. -/
theorem revocation_monotonic :
    (∀ (certs : List AttestationCert) (fetched : List (List Str)) (now : Int),
      (refresh_crls certs fetched now).1 = certs ∨
      (refresh_crls certs fetched now).1 =
        certs.map (refreshUpdate fetched.flatten now)) ∧
    (∀ (serials : List Str) (now : Int) (c : AttestationCert),
      c.revoked = true →
      refreshUpdate serials now c =
        (if serialRevokedMatch serials c then { c with last_checked_at := some now }
         else c)) ∧
    (∀ (p : ParsedCert) (pem : Str) (md : Option Str)
        (certs : List AttestationCert) (now : Int) (existing : AttestationCert),
      certs.find? (fun c => c.cert_hash == p.cert_hash) = some existing →
      (ingest_certificate p pem md certs now).1.revoked = existing.revoked ∧
      (ingest_certificate p pem md certs now).1.revoked_at = existing.revoked_at ∧
      (ingest_certificate p pem md certs now).1.created_at_utc =
        existing.created_at_utc) := by
  refine ⟨?_, ?_, ?_⟩
  · intro certs fetched now
    unfold refresh_crls
    by_cases hempty : fetched.flatten.isEmpty = true
    · rw [if_pos hempty]
      exact Or.inl rfl
    · rw [if_neg hempty]
      exact Or.inr rfl
  · intro serials now c hrev
    unfold refreshUpdate
    by_cases hm : serialRevokedMatch serials c = true
    · rw [if_pos hm, if_pos hm, if_pos hrev]
    · rw [if_neg hm, if_neg hm]
  · intro p pem md certs now existing hfind
    unfold ingest_certificate
    rw [hfind]
    exact ⟨rfl, rfl, rfl⟩

/-- Witness for C5: a revoked row only has its check time bumped, and
re-ingesting `wCertRevoked` preserves its revocation state and creation
time. -/
theorem revocation_monotonic_witness :
    (refreshUpdate [strOf "F00D"] 700 wCertRevoked =
      (if serialRevokedMatch [strOf "F00D"] wCertRevoked then
        { wCertRevoked with last_checked_at := some 700 }
       else wCertRevoked)) ∧
    ((ingest_certificate wParsed (strOf "PEM1") none [wCert, wCertRevoked] 800).1.revoked =
        wCertRevoked.revoked ∧
      (ingest_certificate wParsed (strOf "PEM1") none [wCert, wCertRevoked] 800).1.revoked_at =
        wCertRevoked.revoked_at ∧
      (ingest_certificate wParsed (strOf "PEM1") none [wCert, wCertRevoked] 800).1.created_at_utc =
        wCertRevoked.created_at_utc) :=
  ⟨revocation_monotonic.2.1 [strOf "F00D"] 700 wCertRevoked (by decide),
   revocation_monotonic.2.2 wParsed (strOf "PEM1") none [wCert, wCertRevoked] 800
     wCertRevoked (by decide)⟩

/-! ## C6: idempotent enrolment -/

/-- Claim C6: with an existing row, no forced renewal, a matching (nonempty)
current token, and a remaining lifetime strictly above the renewal buffer,
enrolment returns exactly the stored token with its stored timestamps and
leaves the row unchanged. -/
theorem enroll_idempotent (s : Settings) (payload : EnrollReq) (row : DeviceTok)
    (now : Int) (fresh : Str) (dc : Except Str Unit)
    (hforce : payload.force = false)
    (hfrr : row.force_renewal_required = false)
    (htok : payload.current_token = some row.token)
    (htokne : row.token ≠ [])
    (hbuf : row.expires_at - now > s.device_token_renewal_buffer)
    (hpk : validate_pubkey_format payload.public_key = true)
    (hdc : s.devicecheck_enabled = false) :
    enroll_device s payload (some row) now fresh dc =
      Except.ok (⟨row.token, row.expires_at, row.issued_at⟩, row) := by
  have hne : near_expiry row.expires_at s.device_token_renewal_buffer now = false := by
    simp only [near_expiry, decide_eq_false_iff_not, not_le]
    omega
  have htokempty : row.token.isEmpty = false := by
    simpa [List.isEmpty_iff] using htokne
  simp [enroll_device, enforce_devicecheck, hpk, hdc, hforce, hfrr, htok, hne,
    htokempty]

/-- Witness for C6 at the concrete fixtures (default settings, stored row
`wRow`, repeat request `wEnrollReq`, two million seconds before expiry). -/
theorem enroll_idempotent_witness :
    enroll_device {} wEnrollReq (some wRow) 2000000 (strOf "fresh-token")
        (Except.ok ()) =
      Except.ok (⟨wRow.token, wRow.expires_at, wRow.issued_at⟩, wRow) :=
  enroll_idempotent {} wEnrollReq wRow 2000000 (strOf "fresh-token")
    (Except.ok ()) (by decide) (by decide) (by decide) (by decide) (by decide)
    (by decide) (by decide)

/-! ## C8: per-key identity fields -/

/-- Claim C8, amended: for an authenticated identity the rate limit is the
per-key value with the global authenticated default as fallback (Python
`or`, so `None` and `0` both fall back), while the manifest-summary
permission comes only from the per-key record (`bool` of the dict lookup,
false when unset) — the global `allow_manifest_summary` default is not
consulted for authenticated clients. -/
theorem authenticate_fallbacks (s : Settings) (h : AuthHeaders)
    (hash : Option Str) (now : Int) (key : Str) (r : KeyRecord)
    (idn : ClientIdentity)
    (hkey : h.apiKey = some key)
    (hfind : lookupKey s.verifier_api_keys key = some r)
    (hrun : authenticate_request s h hash now = Except.ok idn)
    (hauth : idn.authenticated = true) :
    idn.rate_limit =
      pyOrInt r.rate_limit_per_minute s.authenticated_rate_limit_per_minute ∧
    idn.allow_manifest_summary = r.allow_manifest_summary.getD false := by
  simp only [authenticate_request] at hrun
  split at hrun
  · have hv := Except.ok.inj hrun
    rw [← hv] at hauth
    simp at hauth
  · simp only [hkey, Option.getD_some] at hrun
    split at hrun
    next => exact Except.noConfusion hrun
    next kr heq =>
      have hkr : kr = r := by
        rw [hfind] at heq
        exact (Option.some.inj heq).symm
      split at hrun
      · exact Except.noConfusion hrun
      · split at hrun
        · exact Except.noConfusion hrun
        · split at hrun
          · exact Except.noConfusion hrun
          · split at hrun
            · exact Except.noConfusion hrun
            · injection hrun with hv
              rw [← hv, hkr]
              exact ⟨rfl, rfl⟩

/-- Witness for the amended C8 at the concrete fixtures: the identity for
key `k1` (no per-key values set) gets the global authenticated rate limit
and no manifest-summary permission. -/
theorem authenticate_fallbacks_witness :
    wIdK1.rate_limit =
      pyOrInt wKeyRec.rate_limit_per_minute
        wSettings.authenticated_rate_limit_per_minute ∧
    wIdK1.allow_manifest_summary = wKeyRec.allow_manifest_summary.getD false :=
  authenticate_fallbacks wSettings wHeaders none 100 (strOf "k1") wKeyRec wIdK1
    (by decide) (by decide) (by decide) (by decide)

/-- Counterexample to claim C8 as stated: the global manifest-summary
default is `true` in `wSettings`, the per-key record for `k1` does not set
`allow_manifest_summary`, and the authenticated identity still gets
`false`, not the global default. -/
theorem authenticate_fallbacks_counterexample :
    wSettings.allow_manifest_summary = true ∧
    (authenticate_request wSettings wHeaders none 100).toOption.map
        ClientIdentity.allow_manifest_summary = some false := by
  exact ⟨by decide, by decide⟩

/-! ## C9: rate limiter bound -/

/-- Writing a key makes it the value the next lookup returns. -/
theorem rateLookup_store (key : Str) (v : Int × Int) :
    ∀ cache, rateLookup (rateStore cache key v) key = some v := by
  intro cache
  induction cache with
  | nil => simp [rateStore, rateLookup, List.find?]
  | cons e rest ih =>
      by_cases he : (e.1 == key) = true
      · simp [rateStore, he, rateLookup, List.find?]
      · simp only [rateStore, he, Bool.false_eq_true, if_false]
        simpa [rateLookup, List.find?, he] using ih

/-- The stored counter after a write is the written count. -/
theorem counterOf_store (key : Str) (v : Int × Int) (cache : List (Str × Int × Int)) :
    counterOf (rateStore cache key v) key = v.1 := by
  simp [counterOf, rateLookup_store]

/-- One hit preserves the bound `counter <= limit` (for nonnegative
limits): the deny branch stores the pair unchanged and the allow branch
only increments when strictly below the limit. -/
theorem rateLimiterHit_counter_le (w : Int) (key : Str) (limit : Int)
    (cache : List (Str × Int × Int)) (now : Int) (hlim : 0 <= limit)
    (hc : counterOf cache key <= limit) :
    counterOf (rateLimiterHit w cache key limit now).2 key <= limit := by
  cases hlook : rateLookup cache key with
  | none =>
      simp only [rateLimiterHit, hlook, Option.getD_none]
      split <;> split <;> simp [counterOf_store] <;> omega
  | some hw =>
      obtain ⟨hits, ws⟩ := hw
      have hcount : counterOf cache key = hits := by simp [counterOf, hlook]
      rw [hcount] at hc
      simp only [rateLimiterHit, hlook, Option.getD_some]
      split <;> split <;> simp [counterOf_store] <;> omega

/-- Claim C9: the stored hit counter for a key never exceeds the limit
over any sequence of hits from an empty cache; a hit that finds the
counter at or above the limit inside the window returns false and leaves
the count unchanged; and a hit at or past the window end resets the pair
to the new window before checking. -/
theorem rate_limiter_never_exceeds (w : Int) (key : Str) (limit : Int) :
    (∀ cache now, 0 <= limit → counterOf cache key <= limit →
       counterOf (rateLimiterHit w cache key limit now).2 key <= limit) ∧
    (∀ cache now hits ws, rateLookup cache key = some (hits, ws) →
       now - ws < w → hits >= limit →
       (rateLimiterHit w cache key limit now).1 = false ∧
       counterOf (rateLimiterHit w cache key limit now).2 key = hits) ∧
    (∀ cache now hits ws, rateLookup cache key = some (hits, ws) →
       now - ws >= w →
       rateLookup (rateLimiterHit w cache key limit now).2 key =
         some (if (0 : Int) >= limit then ((0 : Int), now) else (1, now))) ∧
    (∀ times : List Int, 0 <= limit →
       counterOf (runHits w key limit times []) key <= limit) := by
  refine ⟨fun cache now hlim hc => rateLimiterHit_counter_le w key limit cache now hlim hc,
    ?_, ?_, ?_⟩
  · intro cache now hits ws hlook hwin hge
    simp only [rateLimiterHit, hlook, Option.getD_some]
    rw [if_neg (show ¬(now - (hits, ws).2 >= w) by simp; omega)]
    rw [if_pos (show (hits, ws).1 >= limit by simpa using hge)]
    exact ⟨rfl, by simp [counterOf_store]⟩
  · intro cache now hits ws hlook hreset
    simp only [rateLimiterHit, hlook, Option.getD_some]
    rw [if_pos (show now - (hits, ws).2 >= w by simpa using hreset)]
    by_cases hd : (0 : Int) >= limit
    · simp [hd, rateLookup_store]
    · simp [hd, rateLookup_store]
  · intro times hlim
    have haux : ∀ ts (cache : List (Str × Int × Int)),
        counterOf cache key <= limit →
        counterOf (runHits w key limit ts cache) key <= limit := by
      intro ts
      induction ts with
      | nil => intro cache hc; simpa [runHits] using hc
      | cons t ts2 ih =>
          intro cache hc
          simp only [runHits, List.foldl_cons]
          have hstep := rateLimiterHit_counter_le w key limit cache t hlim hc
          simpa [runHits] using ih _ hstep
    have h0 : counterOf ([] : List (Str × Int × Int)) key <= limit := by
      simp [counterOf, rateLookup, List.find?]
      omega
    exact haux times [] h0

/-- Witness for C9: a full window denies without incrementing, a lapsed
window resets, and five rapid hits at limit 2 stay at 2. -/
theorem rate_limiter_never_exceeds_witness :
    ((rateLimiterHit 60 [(strOf "k", 3, 0)] (strOf "k") 3 30).1 = false ∧
      counterOf (rateLimiterHit 60 [(strOf "k", 3, 0)] (strOf "k") 3 30).2
        (strOf "k") = 3) ∧
    (rateLookup (rateLimiterHit 60 [(strOf "k", 3, 0)] (strOf "k") 3 70).2
        (strOf "k") =
      some (if (0 : Int) >= 3 then ((0 : Int), (70 : Int)) else (1, 70))) ∧
    counterOf (runHits 60 (strOf "k") 2 [0, 1, 2, 3, 4] []) (strOf "k") <= 2 :=
  ⟨(rate_limiter_never_exceeds 60 (strOf "k") 3).2.1 [(strOf "k", 3, 0)] 30 3 0
      (by decide) (by decide) (by decide),
   (rate_limiter_never_exceeds 60 (strOf "k") 3).2.2.1 [(strOf "k", 3, 0)] 70 3 0
      (by decide) (by decide),
   (rate_limiter_never_exceeds 60 (strOf "k") 2).2.2.2 [0, 1, 2, 3, 4] (by decide)⟩

/-! ## C3 and C10: verification engine -/

/-- The attestation predicate either passes with no notes or fails. -/
theorem verify_attestation_cases (db : VerifyDb) (p : VerifyReq) (entry : LedgerEntry) :
    verify_attestation db p entry = (true, []) ∨
    (verify_attestation db p entry).1 = false := by
  unfold verify_attestation
  split
  · exact Or.inr rfl
  · split
    · exact Or.inr rfl
    · split
      · exact Or.inr rfl
      · exact Or.inl rfl

/-- The signature predicate either passes with no notes or fails. -/
theorem verify_signature_cases (p : VerifyReq) (entry : LedgerEntry) :
    verify_signature p entry = (true, []) ∨ (verify_signature p entry).1 = false := by
  unfold verify_signature
  split
  · split
    · exact Or.inr rfl
    · exact Or.inl rfl
  · split
    · exact Or.inr rfl
    · exact Or.inl rfl

/-- The manifest predicate either passes with no notes or fails. -/
theorem verify_manifest_cases (p : VerifyReq) (entry : LedgerEntry) :
    verify_manifest p entry = (true, []) ∨ (verify_manifest p entry).1 = false := by
  unfold verify_manifest
  split
  · exact Or.inr rfl
  · exact Or.inl rfl

/-- The timestamp predicate either passes with no notes or fails. -/
theorem verify_timestamp_cases (entry : LedgerEntry) (now : Int) :
    verify_timestamp entry now = (true, []) ∨ (verify_timestamp entry now).1 = false := by
  unfold verify_timestamp
  split
  · exact Or.inr rfl
  · exact Or.inl rfl

/-- Claim C3: when the lookup finds an entry and some predicate fails, the
failure reason is picked by priority — attestation, then signature or
manifest, then timestamp, then content match — and when every predicate
passes the result is the verified success response. -/
theorem verify_verdict_priority (s : Settings) (p : VerifyReq)
    (idn : ClientIdentity) (db : VerifyDb) (now : Int)
    (cache : List (Str × Int)) (res : VerifyResult)
    (cache2 : List (Str × Int)) (entry : LedgerEntry)
    (hrun : perform_verification s p idn db now cache = (Except.ok res, cache2))
    (hfound : lookup_ledger db p = some entry) :
    ((verify_attestation db p entry).1 = false →
      res = VerifyResult.failure (strOf "attestation_revoked") true
        ((verify_signature p entry).1 && (verify_manifest p entry).1) false) ∧
    ((verify_attestation db p entry).1 = true →
      ((verify_signature p entry).1 && (verify_manifest p entry).1) = false →
      res = VerifyResult.failure (strOf "signature_mismatch") true false true) ∧
    ((verify_attestation db p entry).1 = true →
      (verify_signature p entry).1 = true → (verify_manifest p entry).1 = true →
      (verify_timestamp entry now).1 = false →
      res = VerifyResult.failure (strOf "timestamp_mismatch") true true true) ∧
    ((verify_attestation db p entry).1 = true →
      (verify_signature p entry).1 = true → (verify_manifest p entry).1 = true →
      (verify_timestamp entry now).1 = true →
      (entry.content_hash == p.content_hash) = false →
      res = VerifyResult.failure (strOf "ledger_not_found") true true true) ∧
    ((verify_attestation db p entry).1 = true →
      (verify_signature p entry).1 = true → (verify_manifest p entry).1 = true →
      (verify_timestamp entry now).1 = true →
      (entry.content_hash == p.content_hash) = true →
      res = VerifyResult.success p.content_hash entry.entry_id
        (if [strOf "basic", strOf "attested", strOf "rooted"].contains
            entry.proof_level then entry.proof_level else strOf "basic")
        (now + 300) [strOf "Ledger entry matched."]) := by
  simp only [perform_verification] at hrun
  split at hrun
  · simp at hrun
  · split at hrun
    · simp at hrun
    · split at hrun
      · simp at hrun
      · split at hrun
        next heq2 =>
          rw [hfound] at heq2
          exact Option.noConfusion heq2
        next e2 heq2 =>
          rw [hfound] at heq2
          have he : entry = e2 := Option.some.inj heq2
          subst he
          refine ⟨?_, ?_, ?_, ?_, ?_⟩
          · intro hatt
            rw [if_pos (by simp [hatt])] at hrun
            simp only [hatt, Bool.not_false, if_true] at hrun
            exact (Except.ok.inj (congrArg Prod.fst hrun)).symm
          · intro hatt hsm
            rcases Bool.and_eq_false_iff.mp hsm with hs | hs
            · rw [if_pos (by simp [hs])] at hrun
              simp only [hatt, hs, Bool.not_true, Bool.not_false, if_false,
                if_true, Bool.true_or, Bool.false_and] at hrun
              exact (Except.ok.inj (congrArg Prod.fst hrun)).symm
            · rw [if_pos (by simp [hs])] at hrun
              simp only [hatt, hs, Bool.not_true, Bool.not_false, if_false,
                if_true, Bool.or_true, Bool.and_false] at hrun
              exact (Except.ok.inj (congrArg Prod.fst hrun)).symm
          · intro hatt hsig hman hts
            rw [if_pos (by simp [hts])] at hrun
            simp only [hatt, hsig, hman, hts, Bool.not_true, Bool.not_false,
              if_false, if_true, Bool.or_false, Bool.false_or, Bool.and_true,
              Bool.true_and] at hrun
            exact (Except.ok.inj (congrArg Prod.fst hrun)).symm
          · intro hatt hsig hman hts hcm
            rw [if_pos (by simp [hcm])] at hrun
            simp only [hatt, hsig, hman, hts, hcm, Bool.not_true,
              Bool.not_false, if_false, if_true, Bool.or_false, Bool.false_or,
              Bool.and_true, Bool.true_and] at hrun
            exact (Except.ok.inj (congrArg Prod.fst hrun)).symm
          · intro hatt hsig hman hts hcm
            rw [if_neg (by simp [hatt, hsig, hman, hts, hcm])] at hrun
            have hA : verify_attestation db p entry = (true, []) := by
              rcases verify_attestation_cases db p entry with h | h
              · exact h
              · rw [hatt] at h; exact absurd h (by simp)
            have hS : verify_signature p entry = (true, []) := by
              rcases verify_signature_cases p entry with h | h
              · exact h
              · rw [hsig] at h; exact absurd h (by simp)
            have hM : verify_manifest p entry = (true, []) := by
              rcases verify_manifest_cases p entry with h | h
              · exact h
              · rw [hman] at h; exact absurd h (by simp)
            have hT : verify_timestamp entry now = (true, []) := by
              rcases verify_timestamp_cases entry now with h | h
              · exact h
              · rw [hts] at h; exact absurd h (by simp)
            simp only [hcm, hA, hS, hM, hT, if_true, List.append_nil,
              List.nil_append, List.isEmpty_nil] at hrun
            exact (Except.ok.inj (congrArg Prod.fst hrun)).symm

/-- Both arms of the verdict stage succeed with the same cache. -/
theorem exceptOk_ite_ok {c : Prop} [Decidable c] (u v : VerifyResult)
    (x : List (Str × Int)) :
    exceptOk (if c then ((Except.ok u : Except HttpErr VerifyResult), x)
              else (Except.ok v, x)).1 = true := by
  split <;> rfl

/-- Both arms of the verdict stage return the post-guard cache. -/
theorem snd_ite_pair {c : Prop} [Decidable c] (u v : Except HttpErr VerifyResult)
    (x : List (Str × Int)) :
    (if c then (u, x) else (v, x)).2 = x := by
  split <;> rfl

/-- Claim C10: once hygiene and manifest validation pass, the replay key is
written before the lookup, so the first call succeeds (whatever its
verdict) with the key consumed, and an identical call within the TTL gets
429 `replay_detected`; a call rejected by hygiene or by manifest validation
leaves the cache unchanged. -/
theorem replay_guard_consumes (s : Settings) (p : VerifyReq)
    (idn : ClientIdentity) (db : VerifyDb) (now : Int)
    (cache : List (Str × Int)) :
    ((ensurePayloadSafeObj (modelDump p) = Except.ok () ∧
      validate_manifest_summary s p.manifest_summary
        idn.allow_manifest_summary = Except.ok () ∧
      replayLive s cache (replayKey p) now = false) →
      exceptOk (perform_verification s p idn db now cache).1 = true ∧
      (perform_verification s p idn db now cache).2 = (replayKey p, now) :: cache ∧
      (∀ now2, now2 - now < s.replay_cache_ttl_seconds →
        perform_verification s p idn db now2 ((replayKey p, now) :: cache) =
          (Except.error ⟨429, strOf "replay_detected"⟩,
            (replayKey p, now) :: cache))) ∧
    (∀ e, ensurePayloadSafeObj (modelDump p) = Except.error e →
      perform_verification s p idn db now cache = (Except.error e, cache)) ∧
    (∀ e, ensurePayloadSafeObj (modelDump p) = Except.ok () →
      validate_manifest_summary s p.manifest_summary
        idn.allow_manifest_summary = Except.error e →
      perform_verification s p idn db now cache = (Except.error e, cache)) := by
  refine ⟨?_, ?_, ?_⟩
  · rintro ⟨hhyg, hman, hlive⟩
    have hguard : enforce_replay_guard s p now cache =
        Except.ok ((replayKey p, now) :: cache) := by
      simp [enforce_replay_guard, hlive]
    refine ⟨?_, ?_, ?_⟩
    · simp only [perform_verification, hhyg, hman, hguard]
      cases hlook : lookup_ledger db p with
      | none => rfl
      | some e2 => exact exceptOk_ite_ok _ _ _
    · simp only [perform_verification, hhyg, hman, hguard]
      cases hlook : lookup_ledger db p with
      | none => rfl
      | some e2 => exact snd_ite_pair _ _ _
    · intro now2 hlt
      have hlive2 : replayLive s ((replayKey p, now) :: cache)
          (replayKey p) now2 = true := by
        simp [replayLive, hlt]
      have hguard2 : enforce_replay_guard s p now2 ((replayKey p, now) :: cache) =
          Except.error ⟨429, strOf "replay_detected"⟩ := by
        simp [enforce_replay_guard, hlive2]
      simp only [perform_verification, hhyg, hman, hguard2]
  · intro e herr
    simp only [perform_verification, herr]
  · intro e hok herr
    simp only [perform_verification, hok, herr]

/-- Witness for C3: against the revoked-certificate database the result for
a fully matching payload is `attestation_revoked`, by the theorem applied
to the concretely evaluated run. -/
theorem verify_verdict_priority_witness :
    VerifyResult.failure (strOf "attestation_revoked") true true false =
      VerifyResult.failure (strOf "attestation_revoked") true
        ((verify_signature wPayload wEntry).1 && (verify_manifest wPayload wEntry).1)
        false :=
  (verify_verdict_priority {} wPayload wIdentity wVerifyDbRevoked 1000 []
      (VerifyResult.failure (strOf "attestation_revoked") true true false)
      [(replayKey wPayload, 1000)] wEntry (by decide) (by decide)).1 (by decide)

/-- Witness for C10: the first call against `wVerifyDb` succeeds and writes
the replay key; the identical call 200 seconds later is rejected with 429
and the cache is untouched. -/
theorem replay_guard_consumes_witness :
    exceptOk (perform_verification {} wPayload wIdentity wVerifyDb 1000 []).1 = true ∧
    (perform_verification {} wPayload wIdentity wVerifyDb 1000 []).2 =
      (replayKey wPayload, 1000) :: [] ∧
    perform_verification {} wPayload wIdentity wVerifyDb 1200
        [(replayKey wPayload, 1000)] =
      (Except.error ⟨429, strOf "replay_detected"⟩, [(replayKey wPayload, 1000)]) := by
  have h := (replay_guard_consumes {} wPayload wIdentity wVerifyDb 1000 []).1
    ⟨by decide, by decide, by decide⟩
  exact ⟨h.1, h.2.1, h.2.2 1200 (by decide)⟩
